import Mathlib

/-!
Shallow embedding of `lnd_services.go` from the `lndclient` repository, and
proofs about the properties its specification states.

The Go file bootstraps a gRPC connection to an lnd node: it resolves macaroon
(capability token) sources, dials the connection, checks network/version/build
tag compatibility, derives per-domain permissions, activates the domain
clients, and optionally blocks until the node is synced to its chain backend.

Modelling conventions:
* Go `uint32` version components become `Nat` (only comparisons are performed,
  so the semantics coincide on all representable values).
* Go functions returning `error` (nil meaning success) become functions
  returning `Option`/`Except` values over explicit error inductives.
* Effectful calls (file loads, RPCs) are parametrised by their outcomes in an
  `Env` record; the pure control flow that routes those outcomes is the code
  under verification.
* The connection close performed by `checkLndCompatibility.onErr` and by
  `cleanup` is made observable as an explicit `Bool` / event list.
-/

set_option autoImplicit false

namespace Lndclient

/-- Embeds `verrpc.Version`: the app version triple plus build tag list.
The `IdentityPubkey`-style fields irrelevant to version checking are omitted. -/
structure Version where
  appMajor : Nat
  appMinor : Nat
  appPatch : Nat
  buildTags : List String
  deriving DecidableEq, Repr

/-- Embeds `DefaultBuildTags` from `lnd_services.go`. -/
def DefaultBuildTags : List String :=
  ["signrpc", "walletrpc", "chainrpc", "invoicesrpc"]

/-- Embeds the `minimalCompatibleVersion` package variable (0.11.0 with the
default build tags). -/
def minimalCompatibleVersion : Version :=
  { appMajor := 0, appMinor := 11, appPatch := 0, buildTags := DefaultBuildTags }

/-- The distinct error values produced by the version checking code path:
`ErrVersionCheckNotImplemented`, `ErrVersionIncompatible`,
`ErrBuildTagsMissing`, and the `fmt.Errorf("GetVersion error: %v", err)`
wrapper for any other GetVersion failure. -/
inductive VersionError where
  | versionCheckNotImplemented
  | versionIncompatible
  | buildTagsMissing
  | getVersionError (msg : String)
  deriving DecidableEq, Repr

/-- Embeds `assertVersionCompatible` from `lnd_services.go`: sequential,
hierarchical comparison of major, then minor, then patch. `none` plays the
role of the Go `nil` error (success). -/
def assertVersionCompatible (actual expected : Version) : Option VersionError :=
  if actual.appMajor ≠ expected.appMajor then
    if actual.appMajor > expected.appMajor then none
    else some VersionError.versionIncompatible
  else if actual.appMinor ≠ expected.appMinor then
    if actual.appMinor > expected.appMinor then none
    else some VersionError.versionIncompatible
  else if actual.appPatch ≠ expected.appPatch then
    if actual.appPatch > expected.appPatch then none
    else some VersionError.versionIncompatible
  else
    none

/-- Embeds the loop body of `assertBuildTagsEnabled`: walk the required tags
and fail on the first one that is not a key of the tag map. The Go code builds
a `map[string]struct{}` from `actual.BuildTags`; membership in that map is
exactly list membership of the key, which `List.contains` decides here. -/
def requiredTagsCheck (tagMap : List String) : List String → Option VersionError
  | [] => none
  | required :: rest =>
    if tagMap.contains required then requiredTagsCheck tagMap rest
    else some VersionError.buildTagsMissing

/-- Embeds `assertBuildTagsEnabled` from `lnd_services.go`. -/
def assertBuildTagsEnabled (actual : Version) (requiredTags : List String) :
    Option VersionError :=
  requiredTagsCheck actual.buildTags requiredTags

/-- The gRPC `codes.Unimplemented` status code. -/
def unimplementedCode : Nat := 12

/-- Outcome of a failed `GetVersion` call, as inspected by the Go code:
`status.FromError` reports whether the error carries a gRPC status
(`fromStatusOk`), the status code, and the error text used by the
`fmt.Errorf` fallback. -/
structure GrpcError where
  fromStatusOk : Bool
  code : Nat
  msg : String
  deriving DecidableEq, Repr

/-- Embeds `checkVersionCompatibility` from `lnd_services.go`, parametrised by
the outcome of the `client.GetVersion` RPC. An `Unimplemented` status maps to
`ErrVersionCheckNotImplemented`; any other failure is wrapped generically;
otherwise the version and build tags are asserted. -/
def checkVersionCompatibility (getVersionRes : Except GrpcError Version)
    (expected : Version) : Except VersionError Version :=
  match getVersionRes with
  | Except.error e =>
    if e.fromStatusOk && e.code == unimplementedCode then
      Except.error VersionError.versionCheckNotImplemented
    else
      Except.error (VersionError.getVersionError e.msg)
  | Except.ok version =>
    match assertVersionCompatible version expected with
    | some err => Except.error err
    | none =>
      match assertBuildTagsEnabled version expected.buildTags with
      | some err => Except.error err
      | none => Except.ok version

/-- The fields of the `GetInfo` response that `checkLndCompatibility` reads:
the node network, its alias, and its identity pubkey (the latter modelled as
an abstract `Nat` since only pass-through is performed on it). -/
structure Info where
  network : String
  nodeAlias : String
  identityPubkey : Nat
  deriving DecidableEq, Repr

/-- The distinct error shapes produced by `checkLndCompatibility.onErr`:
a wrapped GetInfo failure, a wrapped network mismatch, the rewritten
"at least version X required" message for `ErrVersionIncompatible` and
`ErrBuildTagsMissing`, and the generic "lnd compatibility check failed" wrap
of any other version-check error. -/
inductive CompatError where
  | checkFailedGetInfo (msg : String)
  | checkFailedNetworkMismatch (wanted got : String)
  | versionRequired (minVersion : Version)
  | checkFailedVersion (e : VersionError)
  deriving DecidableEq, Repr

/-- Embeds `checkLndCompatibility` from `lnd_services.go`, parametrised by the
outcomes of its two RPCs (`GetInfo` on the lightning client and `GetVersion`
on the versioner client). The second component of the result records whether
`onErr` ran `conn.Close()` before the error was returned: the Go `onErr`
closure closes the connection on every failure path, and the success path
never closes it. -/
def checkLndCompatibility (getInfoRes : Except String Info)
    (getVersionRes : Except GrpcError Version)
    (network : String) (minVersion : Version) :
    Except CompatError (String × Nat × Version) × Bool :=
  let onErr : CompatError → Except CompatError (String × Nat × Version) × Bool :=
    fun e => (Except.error e, true)
  match getInfoRes with
  | Except.error m => onErr (CompatError.checkFailedGetInfo m)
  | Except.ok info =>
    if network ≠ info.network then
      onErr (CompatError.checkFailedNetworkMismatch network info.network)
    else
      match checkVersionCompatibility getVersionRes minVersion with
      | Except.error e =>
        if e = VersionError.versionIncompatible ∨ e = VersionError.buildTagsMissing then
          onErr (CompatError.versionRequired minVersion)
        else
          onErr (CompatError.checkFailedVersion e)
      | Except.ok version =>
        (Except.ok (info.nodeAlias, info.identityPubkey, version), false)

/-- Helper: the compatibility check reports the connection closed exactly when
it returns an error. -/
theorem checkLndCompatibility_closed_iff (gi : Except String Info)
    (gv : Except GrpcError Version) (network : String) (minVersion : Version) :
    (checkLndCompatibility gi gv network minVersion).2 = true ↔
      ∃ e, (checkLndCompatibility gi gv network minVersion).1 = Except.error e := by
  unfold checkLndCompatibility
  rcases gi with m | info
  · simp
  · by_cases hn : network ≠ info.network
    · simp [hn]
    · rcases hv : checkVersionCompatibility gv minVersion with e | v
      · by_cases he : e = VersionError.versionIncompatible ∨ e = VersionError.buildTagsMissing <;>
          simp [hn, hv, he]
      · simp [hn, hv]

/-- Specification-side ordering: `actual ≥ expected` in the strict
lexicographic order on (major, minor, patch). Written from the spec sentence,
to be compared with `assertVersionCompatible`. -/
def versionLexGe (actual expected : Version) : Prop :=
  actual.appMajor > expected.appMajor ∨
    (actual.appMajor = expected.appMajor ∧
      (actual.appMinor > expected.appMinor ∨
        (actual.appMinor = expected.appMinor ∧
          actual.appPatch ≥ expected.appPatch)))

/-- C1: the version compatibility check succeeds iff `actual ≥ expected` in
the strict lexicographic order on (major, minor, patch), and every failure is
the `ErrVersionIncompatible` value. -/
theorem assertVersionCompatible_lex_characterisation (a e : Version) :
    (assertVersionCompatible a e = none ↔ versionLexGe a e) ∧
    (assertVersionCompatible a e = none ∨
      assertVersionCompatible a e = some VersionError.versionIncompatible) := by
  unfold assertVersionCompatible versionLexGe
  split_ifs <;> simp_all <;> omega

/-- Helper: the tag walk succeeds iff every required tag is a member of the
tag map, and any failure is the `ErrBuildTagsMissing` value. -/
theorem requiredTagsCheck_characterisation (tagMap : List String) (required : List String) :
    (requiredTagsCheck tagMap required = none ↔ ∀ t ∈ required, t ∈ tagMap) ∧
    (requiredTagsCheck tagMap required = none ∨
      requiredTagsCheck tagMap required = some VersionError.buildTagsMissing) := by
  induction required with
  | nil => simp [requiredTagsCheck]
  | cons r rest ih =>
    rcases ih with ⟨ih1, ih2⟩
    unfold requiredTagsCheck
    by_cases h : tagMap.contains r <;> simp_all

/-- C7: the feature-tag check succeeds iff every required tag occurs among the
actual tags, any failure is `ErrBuildTagsMissing`, and the outcome only
depends on the membership sets of the two lists (order and duplication in
either list are irrelevant). -/
theorem assertBuildTagsEnabled_subset (actual : Version) (required : List String) :
    (assertBuildTagsEnabled actual required = none ↔
      ∀ t ∈ required, t ∈ actual.buildTags) ∧
    (assertBuildTagsEnabled actual required = none ∨
      assertBuildTagsEnabled actual required = some VersionError.buildTagsMissing) ∧
    (∀ (actual2 : Version) (required2 : List String),
      (∀ t, t ∈ actual.buildTags ↔ t ∈ actual2.buildTags) →
      (∀ t, t ∈ required ↔ t ∈ required2) →
      assertBuildTagsEnabled actual required = assertBuildTagsEnabled actual2 required2) := by
  refine ⟨(requiredTagsCheck_characterisation _ _).1,
          (requiredTagsCheck_characterisation _ _).2, ?_⟩
  intro actual2 required2 hact hreq
  rcases (requiredTagsCheck_characterisation actual.buildTags required).2 with h1 | h1 <;>
    rcases (requiredTagsCheck_characterisation actual2.buildTags required2).2 with h2 | h2 <;>
    unfold assertBuildTagsEnabled <;> rw [h1, h2]
  · exfalso
    have hall := (requiredTagsCheck_characterisation actual.buildTags required).1.mp h1
    have : requiredTagsCheck actual2.buildTags required2 = none := by
      refine (requiredTagsCheck_characterisation actual2.buildTags required2).1.mpr ?_
      intro t ht
      exact (hact t).mp (hall t ((hreq t).mpr ht))
    rw [this] at h2
    cases h2
  · exfalso
    have hall := (requiredTagsCheck_characterisation actual2.buildTags required2).1.mp h2
    have : requiredTagsCheck actual.buildTags required = none := by
      refine (requiredTagsCheck_characterisation actual.buildTags required).1.mpr ?_
      intro t ht
      exact (hact t).mpr (hall t ((hreq t).mp ht))
    rw [this] at h1
    cases h1

/-- Witness for C7: the spec examples. Required tags signrpc and walletrpc
against actual walletrpc, signrpc, chainrpc pass; order-insensitivity holds on
a concrete reordering. -/
theorem assertBuildTagsEnabled_subset_witness :
    assertBuildTagsEnabled
        { appMajor := 0, appMinor := 11, appPatch := 0,
          buildTags := ["walletrpc", "signrpc", "chainrpc"] }
        ["signrpc", "walletrpc"] = none ∧
    assertBuildTagsEnabled
        { appMajor := 0, appMinor := 11, appPatch := 0,
          buildTags := ["walletrpc", "signrpc", "chainrpc"] }
        ["signrpc", "walletrpc"] =
      assertBuildTagsEnabled
        { appMajor := 0, appMinor := 11, appPatch := 0,
          buildTags := ["chainrpc", "signrpc", "walletrpc", "signrpc"] }
        ["walletrpc", "signrpc", "walletrpc"] := by
  constructor
  · exact (assertBuildTagsEnabled_subset
      { appMajor := 0, appMinor := 11, appPatch := 0,
        buildTags := ["walletrpc", "signrpc", "chainrpc"] }
      ["signrpc", "walletrpc"]).1.mpr (by decide)
  · exact (assertBuildTagsEnabled_subset
      { appMajor := 0, appMinor := 11, appPatch := 0,
        buildTags := ["walletrpc", "signrpc", "chainrpc"] }
      ["signrpc", "walletrpc"]).2.2
      { appMajor := 0, appMinor := 11, appPatch := 0,
        buildTags := ["chainrpc", "signrpc", "walletrpc", "signrpc"] }
      ["walletrpc", "signrpc", "walletrpc"]
      (by intro t; simp only [List.mem_cons, List.not_mem_nil, or_false]; tauto)
      (by intro t; simp only [List.mem_cons, List.not_mem_nil, or_false]; tauto)

/-- C8: a GetVersion failure carrying the gRPC `Unimplemented` status maps to
the distinguished `ErrVersionCheckNotImplemented`; any other GetVersion
failure maps to the generic wrapped error; and the two outcomes are distinct
values, so the caller can tell them apart. -/
theorem checkVersionCompatibility_unimplemented (e : GrpcError) (expected : Version) :
    (e.fromStatusOk = true → e.code = unimplementedCode →
      checkVersionCompatibility (Except.error e) expected =
        Except.error VersionError.versionCheckNotImplemented) ∧
    (¬(e.fromStatusOk = true ∧ e.code = unimplementedCode) →
      checkVersionCompatibility (Except.error e) expected =
        Except.error (VersionError.getVersionError e.msg)) ∧
    (∀ m, VersionError.versionCheckNotImplemented ≠ VersionError.getVersionError m) := by
  refine ⟨?_, ?_, ?_⟩
  · intro h1 h2
    simp [checkVersionCompatibility, h1, h2]
  · intro h
    have hfalse : (e.fromStatusOk && e.code == unimplementedCode) = false := by
      by_cases hb : e.fromStatusOk = true
      · have hc : e.code ≠ unimplementedCode := fun hc => h ⟨hb, hc⟩
        simp [hb, hc]
      · simp only [Bool.not_eq_true] at hb
        simp [hb]
    simp [checkVersionCompatibility, hfalse]
  · intro m h
    cases h

/-- Witness for C8: a concrete unimplemented-status error yields the
distinguished error, and a concrete non-status error yields the generic
wrapper. -/
theorem checkVersionCompatibility_unimplemented_witness :
    checkVersionCompatibility
        (Except.error { fromStatusOk := true, code := 12, msg := "unimpl" })
        minimalCompatibleVersion =
      Except.error VersionError.versionCheckNotImplemented ∧
    checkVersionCompatibility
        (Except.error { fromStatusOk := false, code := 12, msg := "conn reset" })
        minimalCompatibleVersion =
      Except.error (VersionError.getVersionError "conn reset") := by
  constructor
  · exact (checkVersionCompatibility_unimplemented
      { fromStatusOk := true, code := 12, msg := "unimpl" }
      minimalCompatibleVersion).1 rfl rfl
  · exact (checkVersionCompatibility_unimplemented
      { fromStatusOk := false, code := 12, msg := "conn reset" }
      minimalCompatibleVersion).2.1 (by simp)

/-- C4: the compatibility check closes the just-opened connection exactly on
its failure paths (GetInfo failure, network mismatch, or any version-check
failure): an error is returned iff `conn.Close()` ran before returning, and
the success path leaves the connection open. -/
theorem checkLndCompatibility_closes_on_failure (gi : Except String Info)
    (gv : Except GrpcError Version) (network : String) (minVersion : Version) :
    ((∃ e, (checkLndCompatibility gi gv network minVersion).1 = Except.error e) ↔
      (checkLndCompatibility gi gv network minVersion).2 = true) :=
  (checkLndCompatibility_closed_iff gi gv network minVersion).symm

/-- Embeds `availablePermissions` from `lnd_services.go`. -/
structure availablePermissions where
  lightning : Bool
  walletKit : Bool
  chainNotifier : Bool
  signer : Bool
  invoices : Bool
  router : Bool
  readOnly : Bool
  deriving DecidableEq, Repr

/-- Embeds the `LndServices` struct: each domain-client field is modelled by
whether it was populated (a nil interface in Go corresponds to `false`). -/
structure LndServices where
  client : Bool
  walletKit : Bool
  chainNotifier : Bool
  signer : Bool
  invoices : Bool
  router : Bool
  versioner : Bool
  deriving DecidableEq, Repr

/-- The shutdown hooks appended to `cleanupFuncs` during activation: the
lightning client, chain notifier client and invoices client each register a
`WaitForFinished` hook; signer, wallet kit and router register none. -/
inductive Hook where
  | lightningHook
  | chainNotifierHook
  | invoicesHook
  deriving DecidableEq, Repr

/-- Embeds the `GrpcLndServices` struct: the populated service set together
with the `cleanupFuncs` captured by the `cleanup` closure. -/
structure GrpcLndServices where
  lndServices : LndServices
  cleanupFuncs : List Hook
  deriving DecidableEq, Repr

/-- Embeds the activation block of `NewLndServices` (lines 270 to 317): the
lightning client is mandatory (its permission flag being false aborts with an
error), the versioner is always populated, and each other domain client is
populated iff its permission flag is true, appending shutdown hooks in
activation order (lightning, chain notifier, invoices). -/
def buildServices (permissions : availablePermissions) :
    Except String GrpcLndServices :=
  if permissions.lightning then
    Except.ok
      { lndServices :=
          { client := true
            versioner := true
            chainNotifier := permissions.chainNotifier
            invoices := permissions.invoices
            signer := permissions.signer
            walletKit := permissions.walletKit
            router := permissions.router }
        cleanupFuncs :=
          [Hook.lightningHook] ++
            (if permissions.chainNotifier then [Hook.chainNotifierHook] else []) ++
            (if permissions.invoices then [Hook.invoicesHook] else []) }
  else
    Except.error "required permissions for main lightning client not available"

/-- Observable steps of the `cleanup` closure and `Close` method. -/
inductive TeardownEvent where
  | closeConn
  | runHook (h : Hook)
  deriving DecidableEq, Repr

/-- Embeds the `cleanup` closure built in `NewLndServices`: close the
connection, then run every registered cleanup function in order. -/
def cleanup (cleanupFuncs : List Hook) : List TeardownEvent :=
  TeardownEvent.closeConn :: cleanupFuncs.map TeardownEvent.runHook

/-- Embeds the method on `GrpcLndServices`: `Close` invokes the stored
`cleanup` closure. -/
def GrpcLndServices.Close (s : GrpcLndServices) : List TeardownEvent :=
  cleanup s.cleanupFuncs

/-- The configuration fields of `LndServicesConfig` that drive the control
flow under verification. Raw macaroon bytes are modelled as a byte list
(`none` embeds the Go `nil` slice). -/
structure LndServicesConfig where
  macaroonDir : String
  customMacaroonPath : String
  customMacaroon : Option (List Nat)
  network : String
  checkVersion : Option Version
  blockUntilChainSynced : Bool

/-- Outcomes of the effectful calls performed by `NewLndServices`, in program
order: resolving the macaroon directory, dialing, resolving chain parameters,
loading the readonly macaroon, the readonly permission check, the two
compatibility RPCs, loading the macaroon pouch, deriving the permission set,
and the chain-sync wait. -/
structure Env where
  loadMacDirRes : Except String String
  dialRes : Except String Unit
  chainParamsRes : Except String Unit
  loadReadonlyMacRes : Except String Unit
  readonlyPermsOk : Bool
  getInfoRes : Except String Info
  getVersionRes : Except GrpcError Version
  loadPouchRes : Except String Unit
  permissions : availablePermissions
  syncWaitRes : Except String Unit

/-- Connection-level effects recorded by the bootstrap model: the dial that
opens the connection and the `conn.Close()` that closes it. -/
inductive Effect where
  | dial
  | closeConn
  deriving DecidableEq, Repr

/-- The distinct error exits of `NewLndServices`, one per return site. -/
inductive BootError where
  | macaroonConfigConflict
  | macDirError (msg : String)
  | dialError (msg : String)
  | chainParamsError (msg : String)
  | readonlyMacLoadError (msg : String)
  | readonlyPermsMissing
  | compatError (e : CompatError)
  | pouchLoadError (msg : String)
  | lightningPermsMissing
  | syncWaitError (msg : String)
  deriving DecidableEq, Repr

/-- Embeds `NewLndServices` from `lnd_services.go`, parametrised by the
outcomes of its effectful calls. The second component is the trace of
connection effects: `dial` is recorded when `getClientConn` succeeds and
`closeConn` when the connection is closed (inside `checkLndCompatibility` on
its failure, or by `cleanup()` when the chain-sync wait fails). -/
def newLndServices (cfg : LndServicesConfig) (env : Env) :
    Except BootError GrpcLndServices × List Effect :=
  let checkVersion := cfg.checkVersion.getD minimalCompatibleVersion
  if cfg.customMacaroon = none ∧ cfg.macaroonDir ≠ "" ∧ cfg.customMacaroonPath ≠ "" then
    (Except.error BootError.macaroonConfigConflict, [])
  else
    match (match cfg.customMacaroon with
           | none => env.loadMacDirRes
           | some _ => Except.ok "") with
    | Except.error m => (Except.error (BootError.macDirError m), [])
    | Except.ok _macaroonDir =>
      match env.dialRes with
      | Except.error m => (Except.error (BootError.dialError m), [])
      | Except.ok _ =>
        match env.chainParamsRes with
        | Except.error m => (Except.error (BootError.chainParamsError m), [Effect.dial])
        | Except.ok _ =>
          match (match cfg.customMacaroon with
                 | none => env.loadReadonlyMacRes
                 | some _ => Except.ok ()) with
          | Except.error m =>
            (Except.error (BootError.readonlyMacLoadError m), [Effect.dial])
          | Except.ok _ =>
            if !env.readonlyPermsOk then
              (Except.error BootError.readonlyPermsMissing, [Effect.dial])
            else
              let compat := checkLndCompatibility env.getInfoRes env.getVersionRes
                cfg.network checkVersion
              let effs1 := [Effect.dial] ++
                (if compat.2 then [Effect.closeConn] else [])
              match compat.1 with
              | Except.error e => (Except.error (BootError.compatError e), effs1)
              | Except.ok _nodeInfo =>
                match env.loadPouchRes with
                | Except.error m => (Except.error (BootError.pouchLoadError m), effs1)
                | Except.ok _ =>
                  match buildServices env.permissions with
                  | Except.error _ =>
                    (Except.error BootError.lightningPermsMissing, effs1)
                  | Except.ok services =>
                    if cfg.blockUntilChainSynced then
                      match env.syncWaitRes with
                      | Except.error m =>
                        (Except.error (BootError.syncWaitError m),
                          effs1 ++ [Effect.closeConn])
                      | Except.ok _ => (Except.ok services, effs1)
                    else
                      (Except.ok services, effs1)

/-- Helper: a successful bootstrap returns exactly the services built by the
activation block from the resolved permission set. -/
theorem newLndServices_ok_buildServices (cfg : LndServicesConfig) (env : Env)
    (s : GrpcLndServices) (h : (newLndServices cfg env).1 = Except.ok s) :
    buildServices env.permissions = Except.ok s := by
  unfold newLndServices at h
  split at h
  · simp at h
  · split at h <;> try simp at h
    split at h <;> try simp at h
    split at h <;> try simp at h
    split at h <;> try simp at h
    split at h <;> try simp at h
    split at h <;> try simp at h
    split at h <;> try simp at h
    rcases hs : env.syncWaitRes with m | u <;>
      rcases hb : cfg.blockUntilChainSynced <;>
        rcases hbs : buildServices env.permissions with e | services <;>
          simp [hs, hb, hbs] at h <;> simp_all

/-- C2: a domain client is populated in the constructed registry iff its
permission flag resolved true, the versioner is always populated, and if the
lightning (core) permission flag is false then the activation block fails —
and the whole bootstrap fails, never returning a registry. -/
theorem registry_matches_permissions (perms : availablePermissions) :
    (perms.lightning = false → ∀ s, buildServices perms ≠ Except.ok s) ∧
    (∀ s, buildServices perms = Except.ok s →
      s.lndServices.client = true ∧
      s.lndServices.versioner = true ∧
      s.lndServices.chainNotifier = perms.chainNotifier ∧
      s.lndServices.invoices = perms.invoices ∧
      s.lndServices.signer = perms.signer ∧
      s.lndServices.walletKit = perms.walletKit ∧
      s.lndServices.router = perms.router) ∧
    (∀ (cfg : LndServicesConfig) (env : Env), env.permissions = perms →
      perms.lightning = false → ∀ s, (newLndServices cfg env).1 ≠ Except.ok s) := by
  refine ⟨?_, ?_, ?_⟩
  · intro hl s h
    unfold buildServices at h
    simp [hl] at h
  · intro s h
    unfold buildServices at h
    by_cases hl : perms.lightning
    · rw [if_pos hl] at h
      injection h with h
      subst h
      simp
    · simp [hl] at h
  · intro cfg env hperm hl s h
    have hb := newLndServices_ok_buildServices cfg env s h
    rw [hperm] at hb
    unfold buildServices at hb
    simp [hl] at hb

/-- Witness for C2: with all permissions granted except the router, the
registry contains exactly the corresponding clients; with the lightning
permission missing, activation fails. -/
theorem registry_matches_permissions_witness :
    (∀ s, buildServices
        { lightning := false, walletKit := true, chainNotifier := true,
          signer := true, invoices := true, router := true, readOnly := true } ≠
        Except.ok s) ∧
    (∀ s, buildServices
        { lightning := true, walletKit := true, chainNotifier := true,
          signer := true, invoices := true, router := false, readOnly := true } =
          Except.ok s →
      s.lndServices.client = true ∧ s.lndServices.versioner = true ∧
      s.lndServices.chainNotifier = true ∧ s.lndServices.invoices = true ∧
      s.lndServices.signer = true ∧ s.lndServices.walletKit = true ∧
      s.lndServices.router = false) := by
  constructor
  · exact (registry_matches_permissions
      { lightning := false, walletKit := true, chainNotifier := true,
        signer := true, invoices := true, router := true, readOnly := true }).1 rfl
  · exact (registry_matches_permissions
      { lightning := true, walletKit := true, chainNotifier := true,
        signer := true, invoices := true, router := false, readOnly := true }).2.1

/-- C3: for every permission set, teardown of the activated services first
closes the connection and then runs the registered shutdown hooks in
activation order, and every registered hook runs exactly once. -/
theorem teardown_close_then_hooks (perms : availablePermissions)
    (s : GrpcLndServices) (h : buildServices perms = Except.ok s) :
    s.Close = TeardownEvent.closeConn :: s.cleanupFuncs.map TeardownEvent.runHook ∧
    ∀ hk ∈ s.cleanupFuncs, s.Close.count (TeardownEvent.runHook hk) = 1 := by
  constructor
  · rfl
  · intro hk hmem
    unfold buildServices at h
    by_cases hl : perms.lightning
    · rw [if_pos hl] at h
      injection h with h
      subst h
      simp only [GrpcLndServices.Close, cleanup] at hmem ⊢
      by_cases hc : perms.chainNotifier <;> by_cases hi : perms.invoices <;>
        simp only [hc, hi, if_true, if_false] at hmem ⊢ <;>
        cases hk <;> simp_all
    · simp [hl] at h

/-- Witness for C3: with all optional domains enabled, teardown closes the
connection and then runs the lightning, chain notifier and invoices hooks,
each exactly once. -/
theorem teardown_close_then_hooks_witness :
    GrpcLndServices.Close
        { lndServices :=
            { client := true, versioner := true, chainNotifier := true,
              invoices := true, signer := true, walletKit := true, router := true }
          cleanupFuncs :=
            [Hook.lightningHook, Hook.chainNotifierHook, Hook.invoicesHook] } =
      TeardownEvent.closeConn ::
        [Hook.lightningHook, Hook.chainNotifierHook,
          Hook.invoicesHook].map TeardownEvent.runHook ∧
    ∀ hk ∈ [Hook.lightningHook, Hook.chainNotifierHook, Hook.invoicesHook],
      (GrpcLndServices.Close
          { lndServices :=
              { client := true, versioner := true, chainNotifier := true,
                invoices := true, signer := true, walletKit := true, router := true }
            cleanupFuncs :=
              [Hook.lightningHook, Hook.chainNotifierHook,
                Hook.invoicesHook] }).count (TeardownEvent.runHook hk) = 1 :=
  teardown_close_then_hooks
    { lightning := true, walletKit := true, chainNotifier := true,
      signer := true, invoices := true, router := true, readOnly := true }
    _ rfl

/-- Outcome of one `GetInfo` poll inside `waitForChainSync`: the call failed,
or it reported `SyncedToChain` false, or it reported `SyncedToChain` true. -/
inductive PollOutcome where
  | failed
  | notSynced
  | synced
  deriving DecidableEq, Repr

/-- Terminal outcome of the `waitForChainSync` polling goroutine. `pending`
marks runs whose (finite) outcome list was exhausted without reaching a
terminal poll; it corresponds to no return of the Go loop. -/
inductive WaitResult where
  | ok
  | pollError
  | cancelled
  | pending
  deriving DecidableEq, Repr

/-- Observable steps of the polling goroutine: issuing one `GetInfo` poll, and
completing one full `chainSyncPollInterval` sleep. -/
inductive WaitEvent where
  | pollEv
  | sleepEv
  deriving DecidableEq, Repr

/-- Embeds the `Done` condition of the per-call context created by
`context.WithTimeout(mainCtx, rpcTimeout)` at line 425 of `lnd_services.go`.
By the semantics of the Go `context` package a context derived from `mainCtx`
is cancelled as soon as its parent is cancelled or its own timeout elapses, so
the in-flight `GetInfo` call is aborted under either condition. -/
def perCallCtxDone (mainCtxCancelled timeoutElapsed : Bool) : Bool :=
  mainCtxCancelled || timeoutElapsed

/-- Embeds the polling loop of `waitForChainSync` (lines 419 to 452 of
`lnd_services.go`), parametrised by the poll outcomes and by when the caller
cancellation fires. `cancelDuringPoll i` means the caller context is cancelled
while poll `i` is in flight: the per-call context (a child of the caller
context) is then cancelled, the gRPC call returns an error, and the loop takes
its `err != nil` branch, surfacing a poll error. `cancelDuringSleep i` means
the cancellation fires during the select after poll `i` reported not-synced:
the loop returns the cancellation cause. Otherwise a not-synced poll is
followed by one full interval sleep and the next poll. -/
def syncLoop (cancelDuringPoll cancelDuringSleep : Nat → Bool) :
    List PollOutcome → Nat → WaitResult × List WaitEvent
  | [], _ => (WaitResult.pending, [])
  | p :: rest, i =>
    if cancelDuringPoll i then
      (WaitResult.pollError, [WaitEvent.pollEv])
    else
      match p with
      | PollOutcome.failed => (WaitResult.pollError, [WaitEvent.pollEv])
      | PollOutcome.synced => (WaitResult.ok, [WaitEvent.pollEv])
      | PollOutcome.notSynced =>
        if cancelDuringSleep i then
          (WaitResult.cancelled, [WaitEvent.pollEv])
        else
          let next := syncLoop cancelDuringPoll cancelDuringSleep rest (i + 1)
          (next.1, WaitEvent.pollEv :: WaitEvent.sleepEv :: next.2)

/-- Helper: with no cancellation, the loop runs through `n` not-synced polls,
sleeping after each, and stops at the first terminal poll, for any start
index. -/
theorem syncLoop_no_cancel (t : PollOutcome)
    (ht : t = PollOutcome.synced ∨ t = PollOutcome.failed)
    (rest : List PollOutcome) :
    ∀ (n i : Nat),
      syncLoop (fun _ => false) (fun _ => false)
          (List.replicate n PollOutcome.notSynced ++ t :: rest) i =
        ((if t = PollOutcome.synced then WaitResult.ok else WaitResult.pollError),
          (List.replicate n [WaitEvent.pollEv, WaitEvent.sleepEv]).flatten ++
            [WaitEvent.pollEv]) := by
  intro n
  induction n with
  | zero =>
    intro i
    rcases ht with h | h <;> subst h <;> simp [syncLoop]
  | succ n ih =>
    intro i
    simp only [List.replicate_succ, List.cons_append, List.flatten, syncLoop,
      Bool.false_eq_true, if_false]
    simp [ih (i + 1)]

/-- C6: for every poll-outcome sequence with first terminal outcome `t` after
`n` not-synced polls, the wait issues exactly the first `n + 1` polls with one
interval sleep after each not-synced poll, returns success iff `t` reported
synced and the poll error iff `t` failed, and never polls again after a failed
poll (the remainder of the sequence is never consulted). -/
theorem sync_wait_first_terminal (n : Nat) (t : PollOutcome)
    (rest : List PollOutcome)
    (ht : t = PollOutcome.synced ∨ t = PollOutcome.failed) :
    syncLoop (fun _ => false) (fun _ => false)
        (List.replicate n PollOutcome.notSynced ++ t :: rest) 0 =
      ((if t = PollOutcome.synced then WaitResult.ok else WaitResult.pollError),
        (List.replicate n [WaitEvent.pollEv, WaitEvent.sleepEv]).flatten ++
          [WaitEvent.pollEv]) :=
  syncLoop_no_cancel t ht rest n 0

/-- Witness for C6: the spec scenario [not-synced, not-synced, synced]
followed by an unconsulted failed poll completes with success after the third
poll and two full interval sleeps. -/
theorem sync_wait_first_terminal_witness :
    syncLoop (fun _ => false) (fun _ => false)
        (List.replicate 2 PollOutcome.notSynced ++
          PollOutcome.synced :: [PollOutcome.failed]) 0 =
      (WaitResult.ok,
        [WaitEvent.pollEv, WaitEvent.sleepEv, WaitEvent.pollEv,
          WaitEvent.sleepEv, WaitEvent.pollEv]) := by
  have h := sync_wait_first_terminal 2 PollOutcome.synced [PollOutcome.failed]
    (Or.inl rfl)
  simpa using h

/-- Helper: one loop iteration on a not-synced poll with no cancellation
issues the poll, sleeps one interval, and recurses. -/
theorem syncLoop_notSynced_step (cp cs : Nat → Bool) (rest : List PollOutcome)
    (i : Nat) (h1 : cp i = false) (h2 : cs i = false) :
    syncLoop cp cs (PollOutcome.notSynced :: rest) i =
      ((syncLoop cp cs rest (i + 1)).1,
        WaitEvent.pollEv :: WaitEvent.sleepEv ::
          (syncLoop cp cs rest (i + 1)).2) := by
  simp [syncLoop, h1, h2]

/-- Counterexample for C5 as stated. The claim asserts that an in-flight
status query can be aborted only by its own fixed per-call timeout and never
by the cancellation token of the caller; since the per-call context is
`context.WithTimeout(mainCtx, rpcTimeout)`, a child of the caller context, the
claim entails `perCallCtxDone true false = false` (caller cancelled, timeout
not elapsed, query not aborted). In fact the per-call context is then done,
the in-flight query is aborted, and a poll that would have reported synced
instead surfaces a poll error. -/
theorem sync_inflight_cancel_counterexample :
    perCallCtxDone true false = true ∧
    (syncLoop (fun _ => true) (fun _ => false) [PollOutcome.synced] 0).1 =
      WaitResult.pollError := by
  exact ⟨rfl, rfl⟩

/-- C5 amended: cancellation is checked cooperatively during the inter-poll
sleep (a cancellation signalled during the sleep after poll `n` terminates the
wait with the cancellation result after exactly `n + 1` polls, with no further
poll); however, because the per-call timeout context is derived from the
caller context, caller cancellation also aborts an in-flight query, which
then surfaces through the poll-error branch. -/
theorem sync_cancellation_amended (n : Nat) (rest : List PollOutcome) :
    (∀ mainCtxCancelled timeoutElapsed : Bool,
      perCallCtxDone mainCtxCancelled timeoutElapsed = true ↔
        (mainCtxCancelled = true ∨ timeoutElapsed = true)) ∧
    (syncLoop (fun _ => false) (fun j => j == n)
        (List.replicate (n + 1) PollOutcome.notSynced ++ rest) 0 =
      (WaitResult.cancelled,
        (List.replicate n [WaitEvent.pollEv, WaitEvent.sleepEv]).flatten ++
          [WaitEvent.pollEv])) ∧
    (∀ (p : PollOutcome) (ps : List PollOutcome),
      (syncLoop (fun j => j == 0) (fun _ => false) (p :: ps) 0).1 =
        WaitResult.pollError) := by
  refine ⟨?_, ?_, ?_⟩
  · intro mc te
    cases mc <;> cases te <;> simp [perCallCtxDone]
  · have haux : ∀ (k i : Nat) (tail : List PollOutcome),
        syncLoop (fun _ => false) (fun j => j == i + k)
            (List.replicate (k + 1) PollOutcome.notSynced ++ tail) i =
          (WaitResult.cancelled,
            (List.replicate k [WaitEvent.pollEv, WaitEvent.sleepEv]).flatten ++
              [WaitEvent.pollEv]) := by
      intro k
      induction k with
      | zero =>
        intro i tail
        simp [syncLoop]
      | succ k ih =>
        intro i tail
        rw [show i + (k + 1) = (i + 1) + k by omega]
        rw [show k + 1 + 1 = (k + 1) + 1 by omega, List.replicate_succ,
          List.cons_append]
        rw [syncLoop_notSynced_step _ _ _ i rfl
          (by simp only [beq_eq_false_iff_ne, ne_eq]; omega)]
        rw [ih (i + 1) tail]
        simp [List.replicate_succ]
    simpa using haux n 0 rest
  · intro p ps
    simp [syncLoop]

/-- Helper: on a compatibility-check failure the connection was closed. -/
theorem checkLndCompatibility_error_closed (gi : Except String Info)
    (gv : Except GrpcError Version) (network : String) (minVersion : Version)
    (e : CompatError)
    (h : (checkLndCompatibility gi gv network minVersion).1 = Except.error e) :
    (checkLndCompatibility gi gv network minVersion).2 = true :=
  (checkLndCompatibility_closed_iff gi gv network minVersion).mpr ⟨e, h⟩

/-- Helper: on compatibility-check success the connection stays open. -/
theorem checkLndCompatibility_ok_not_closed (gi : Except String Info)
    (gv : Except GrpcError Version) (network : String) (minVersion : Version)
    (a : String × Nat × Version)
    (h : (checkLndCompatibility gi gv network minVersion).1 = Except.ok a) :
    (checkLndCompatibility gi gv network minVersion).2 = false := by
  cases hcl : (checkLndCompatibility gi gv network minVersion).2
  · rfl
  · obtain ⟨e, he⟩ :=
      (checkLndCompatibility_closed_iff gi gv network minVersion).mp hcl
    rw [h] at he
    cases he

/-- C9: when no raw macaroon bytes are supplied and both the macaroon
directory and the custom macaroon path are set, the bootstrap fails with the
configuration-conflict error before any connection effect (the effect trace is
empty, so the connection was never dialed); when raw bytes are supplied, that
conflict error can never be returned. -/
theorem config_conflict_before_dial (cfg : LndServicesConfig) (env : Env) :
    (cfg.customMacaroon = none → cfg.macaroonDir ≠ "" → cfg.customMacaroonPath ≠ "" →
      newLndServices cfg env = (Except.error BootError.macaroonConfigConflict, [])) ∧
    (∀ bytes, cfg.customMacaroon = some bytes →
      (newLndServices cfg env).1 ≠ Except.error BootError.macaroonConfigConflict) := by
  constructor
  · intro h1 h2 h3
    unfold newLndServices
    rw [if_pos ⟨h1, h2, h3⟩]
  · intro bytes hb h
    unfold newLndServices at h
    rw [if_neg (by simp [hb])] at h
    simp only [hb] at h
    split at h <;> try simp at h
    split at h <;> try simp at h
    split at h <;> try simp at h
    split at h <;> try simp at h
    split at h <;> try simp at h
    split at h <;> try simp at h
    split at h
    · split at h <;> simp at h
    · simp at h

/-- C10: the bootstrap closes the opened connection exactly on
compatibility-check failures and chain-sync-wait failures; the failure paths
after the dial but outside the compatibility check (chain-parameter
resolution, readonly macaroon load, readonly permission check, macaroon pouch
load, and the missing core-lightning permission) return their error with the
connection dialed but never closed. -/
theorem conn_close_only_compat_or_sync (cfg : LndServicesConfig) (env : Env) :
    (Effect.closeConn ∈ (newLndServices cfg env).2 ↔
      ((∃ e, (newLndServices cfg env).1 = Except.error (BootError.compatError e)) ∨
        (∃ m, (newLndServices cfg env).1 =
          Except.error (BootError.syncWaitError m)))) ∧
    (∀ m, (newLndServices cfg env).1 = Except.error (BootError.chainParamsError m) →
      (newLndServices cfg env).2 = [Effect.dial]) ∧
    (∀ m, (newLndServices cfg env).1 =
        Except.error (BootError.readonlyMacLoadError m) →
      (newLndServices cfg env).2 = [Effect.dial]) ∧
    ((newLndServices cfg env).1 = Except.error BootError.readonlyPermsMissing →
      (newLndServices cfg env).2 = [Effect.dial]) ∧
    (∀ m, (newLndServices cfg env).1 = Except.error (BootError.pouchLoadError m) →
      (newLndServices cfg env).2 = [Effect.dial]) ∧
    ((newLndServices cfg env).1 = Except.error BootError.lightningPermsMissing →
      (newLndServices cfg env).2 = [Effect.dial]) := by
  unfold newLndServices
  split
  · simp
  · split <;> try simp
    split <;> try simp
    split <;> try simp
    split <;> try simp
    split <;> try simp
    split
    · next e heq =>
      have h2 := checkLndCompatibility_error_closed env.getInfoRes
        env.getVersionRes cfg.network (cfg.checkVersion.getD minimalCompatibleVersion)
        e heq
      simp [h2]
    · next a heq =>
      have h2 := checkLndCompatibility_ok_not_closed env.getInfoRes
        env.getVersionRes cfg.network (cfg.checkVersion.getD minimalCompatibleVersion)
        a heq
      simp only [h2]
      split <;> try simp
      split <;> try simp
      split
      · split <;> simp
      · simp

/-- A sample environment in which every effectful call succeeds, used by the
concrete witnesses below. -/
def sampleEnv : Env :=
  { loadMacDirRes := Except.ok "/data/chain/bitcoin/mainnet"
    dialRes := Except.ok ()
    chainParamsRes := Except.ok ()
    loadReadonlyMacRes := Except.ok ()
    readonlyPermsOk := true
    getInfoRes := Except.ok
      { network := "mainnet", nodeAlias := "alice", identityPubkey := 2 }
    getVersionRes := Except.ok
      { appMajor := 0, appMinor := 12, appPatch := 1, buildTags := DefaultBuildTags }
    loadPouchRes := Except.ok ()
    permissions :=
      { lightning := true, walletKit := true, chainNotifier := true,
        signer := true, invoices := true, router := true, readOnly := true }
    syncWaitRes := Except.ok () }

/-- Witness for C9: with both a macaroon directory and a custom path set and
no raw bytes, the bootstrap returns the conflict error with an empty effect
trace; with raw bytes supplied, the conflict error is not returned. -/
theorem config_conflict_before_dial_witness :
    newLndServices
        { macaroonDir := "/mac/dir", customMacaroonPath := "/mac/custom.macaroon",
          customMacaroon := none, network := "mainnet", checkVersion := none,
          blockUntilChainSynced := false } sampleEnv =
      (Except.error BootError.macaroonConfigConflict, []) ∧
    (newLndServices
        { macaroonDir := "/mac/dir", customMacaroonPath := "/mac/custom.macaroon",
          customMacaroon := some [1, 2, 3], network := "mainnet",
          checkVersion := none, blockUntilChainSynced := false } sampleEnv).1 ≠
      Except.error BootError.macaroonConfigConflict := by
  constructor
  · exact (config_conflict_before_dial _ sampleEnv).1 rfl (by decide) (by decide)
  · exact (config_conflict_before_dial _ sampleEnv).2 [1, 2, 3] rfl

/-- Witness for C10: a chain-parameter failure after the dial leaves the
trace at exactly the dial (connection opened, never closed), and so does the
missing core-lightning permission. -/
theorem conn_close_only_compat_or_sync_witness :
    (newLndServices
        { macaroonDir := "", customMacaroonPath := "", customMacaroon := none,
          network := "mainnet", checkVersion := none,
          blockUntilChainSynced := false }
        { sampleEnv with chainParamsRes := Except.error "unsupported network" }).2 =
      [Effect.dial] ∧
    (newLndServices
        { macaroonDir := "", customMacaroonPath := "", customMacaroon := none,
          network := "mainnet", checkVersion := none,
          blockUntilChainSynced := false }
        { sampleEnv with permissions :=
            { lightning := false, walletKit := true, chainNotifier := true,
              signer := true, invoices := true, router := true,
              readOnly := true } }).2 =
      [Effect.dial] := by
  constructor
  · exact (conn_close_only_compat_or_sync _ _).2.1 "unsupported network" rfl
  · exact (conn_close_only_compat_or_sync _ _).2.2.2.2.2 rfl

end Lndclient
